import Mathlib

/-!
Shallow embedding of the caching / freshness core of the `agileai` backend
service (files `src/agileai/database.py` and `src/agileai/main.py`).

Modelling conventions:
* JSON values decoded by `json.loads` are modelled by the inductive `JValue`
  (numbers restricted to integers; no claim depends on float payloads).
* Wall-clock timestamps are integers counting seconds; `timedelta(hours=h)`
  becomes `3600 * h`.  The Python code stores `datetime.now().isoformat()`
  strings and compares parsed datetimes; the comparison structure is the same.
* The SQLite database is modelled by `Store`, one list per table.  Rows are
  kept in insertion order; `UNIQUE` upserts replace the matching row in place.
* External collaborators (`json.loads` on element strings, the OpenAI
  embedding client) are parameters collected in `Ext`, since they live
  outside the repository.  `json.dumps`/`json.loads` round-tripping of data
  written by this code itself is modelled by storing decoded `JValue`s.
* Python exception paths that the code catches are modelled by `Option` /
  explicit error results; an uncaught exception inside a database write
  batch means the surrounding connection is closed without `commit`, rolling
  every statement of the batch back, which is modelled by returning the
  original store.
-/

inductive JValue where
  | null : JValue
  | bool (b : Bool) : JValue
  | num (n : Int) : JValue
  | str (s : String) : JValue
  | arr (xs : List JValue) : JValue
  | obj (fs : List (String × JValue)) : JValue
deriving Repr

/-- Python truthiness of a decoded JSON value: `None`, `False`, `0`, `""`,
`[]` and `{}` are falsy, everything else is truthy. -/
def truthy : JValue → Bool
  | .null => false
  | .bool b => b
  | .num n => n != 0
  | .str s => s ≠ ""
  | .arr xs => !xs.isEmpty
  | .obj fs => !fs.isEmpty

/-- Raw field lookup in a JSON object (first binding wins; Python dicts have
unique keys). -/
def findField : List (String × JValue) → String → Option JValue
  | [], _ => none
  | (k, v) :: fs, key => if k = key then some v else findField fs key

/-- Python `d.get(key)`: the result as a Python value, where `none` stands
for Python `None` — produced both when the key is absent and when the stored
JSON value is `null`. -/
def pyGet (fs : List (String × JValue)) (key : String) : Option JValue :=
  match findField fs key with
  | some .null => none
  | some v => some v
  | none => none

/-- Python `d.get(key, default)`: the stored value when the key is present
(even when it is `null`), otherwise the default. -/
def pyGetD (fs : List (String × JValue)) (key : String) (dflt : JValue) : JValue :=
  match findField fs key with
  | some v => v
  | none => dflt

/-- Python `x or y` on optional values (`none` = Python `None`): the left
operand when it is truthy, otherwise the right operand. -/
def pyOr (x y : Option JValue) : Option JValue :=
  match x with
  | some v => if truthy v then some v else y
  | none => y

mutual

/-- `json.dumps` restricted to the payload shapes this model stores (string
escaping omitted: no claim inspects serialized label text). -/
def jsonDumps : JValue → String
  | .null => "null"
  | .bool true => "true"
  | .bool false => "false"
  | .num n => toString n
  | .str s => "\"" ++ s ++ "\""
  | .arr xs => "[" ++ jsonDumpsArr xs ++ "]"
  | .obj fs => "\x7b" ++ jsonDumpsObj fs ++ "\x7d"

def jsonDumpsArr : List JValue → String
  | [] => ""
  | [x] => jsonDumps x
  | x :: y :: xs => jsonDumps x ++ ", " ++ jsonDumpsArr (y :: xs)

def jsonDumpsObj : List (String × JValue) → String
  | [] => ""
  | [(k, v)] => "\"" ++ k ++ "\": " ++ jsonDumps v
  | (k, v) :: f :: fs => "\"" ++ k ++ "\": " ++ jsonDumps v ++ ", " ++ jsonDumpsObj (f :: fs)

end

/-- Python `str(x)` / f-string interpolation of a decoded JSON value.
Containers use a JSON-style rendering; Python `repr` would use single
quotes, a difference no proved property depends on (the rendered text is
only ever fed to the external embedding producer). -/
def pyStr : JValue → String
  | .str s => s
  | .null => "None"
  | .bool true => "True"
  | .bool false => "False"
  | .num n => toString n
  | .arr xs => "[" ++ jsonDumpsArr xs ++ "]"
  | .obj fs => "\x7b" ++ jsonDumpsObj fs ++ "\x7d"

/-- Characters removed by Python `str.strip()` with no arguments (ASCII
whitespace; all inputs of interest are ASCII). -/
def isPySpace (c : Char) : Bool :=
  c = ' ' ∨ c = '\t' ∨ c = '\n' ∨ c = '\r' ∨ c = '\x0b' ∨ c = '\x0c'

/-- Python `s.strip()`. -/
def pyStrip (s : String) : String :=
  String.mk (((s.toList.dropWhile isPySpace).reverse.dropWhile isPySpace).reverse)

/-- Python `s.rstrip(';')`: removes EVERY trailing semicolon, not just one. -/
def pyRstripSemi (s : String) : String :=
  String.mk ((s.toList.reverse.dropWhile (fun c => c = ';')).reverse)

/-- ASCII lower-casing of one character (kernel-computable counterpart of
`str.lower()`; all inputs of interest are ASCII). -/
def asciiLower (c : Char) : Char :=
  if 65 ≤ c.toNat ∧ c.toNat ≤ 90 then Char.ofNat (c.toNat + 32) else c

/-- Python `s.lower()` for ASCII strings. -/
def strLower (s : String) : String :=
  String.mk (s.toList.map asciiLower)

def beginsWith : List Char → List Char → Bool
  | [], _ => true
  | _, [] => false
  | a :: p, b :: s => a = b && beginsWith p s

/-- Python `s.startswith(pre)`. -/
def strStartsWith (s pre : String) : Bool :=
  beginsWith pre.toList s.toList

/-- Python `c in s` for a single character. -/
def containsChar (s : String) (c : Char) : Bool :=
  s.toList.any (fun x => x = c)

def natOfDigitsGo (acc : Nat) : List Char → Option Nat
  | [] => some acc
  | d :: ds =>
    if 48 ≤ d.toNat ∧ d.toNat ≤ 57 then natOfDigitsGo (acc * 10 + (d.toNat - 48)) ds
    else none

/-- SQLite integer-literal parsing (for the `SELECT <n>` fragment). -/
def intLit (s : String) : Option Int :=
  match s.toList with
  | [] => none
  | '-' :: ds => if ds = [] then none else (natOfDigitsGo 0 ds).map (fun n => -(n : Int))
  | ds => (natOfDigitsGo 0 ds).map (fun n => (n : Int))

/-- External collaborators of the core: `json.loads` applied to cached
element strings whose producer is outside this repository, and the OpenAI
embedding client (`embed text = none` models the client raising, which the
code catches per issue). The embedding payload is kept abstract as the
serialized bytes handed to `INSERT INTO vec_issues`. -/
structure Externals where
  loads : String → Option JValue
  embed : String → Option String

/-! ## Persistent store (tables created in `database.py: init_db`) -/

structure RepoDataRow where
  repo_name : String
  repo_info : JValue
  last_updated : Int
deriving Repr

structure RepoIssuesRow where
  repo_name : String
  issues_data : JValue
  last_updated : Int
deriving Repr

structure VizRow where
  repo_name : String
  visualization_type : String
  data : JValue
  last_updated : Int
deriving Repr

structure IssueRow where
  issue_id : JValue
  repo_name : String
  issue_number : JValue
  title : JValue
  body : JValue
  state : JValue
  author : JValue
  created_at : JValue
  updated_at : JValue
  labels : String
deriving Repr

structure VecRow where
  vec_id : JValue
  embedding : String
deriving Repr

structure Store where
  repository_data : List RepoDataRow
  repository_issues : List RepoIssuesRow
  visualization_cache : List VizRow
  issues : List IssueRow
  vec_issues : List VecRow
deriving Repr

def Store.empty : Store :=
  ⟨[], [], [], [], []⟩

/-! ## database.py -/

/-- `SELECT repo_info, last_updated FROM repository_data WHERE repo_name = ?`
(the table is UNIQUE on repo_name, so `fetchone` is the first match). -/
def lookupRepoData (s : Store) (repo : String) : Option RepoDataRow :=
  s.repository_data.find? (fun r => r.repo_name = repo)

def lookupRepoIssues (s : Store) (repo : String) : Option RepoIssuesRow :=
  s.repository_issues.find? (fun r => r.repo_name = repo)

def lookupViz (s : Store) (repo vizType : String) : Option VizRow :=
  s.visualization_cache.find?
    (fun r => r.repo_name = repo ∧ r.visualization_type = vizType)

/-- `database.py: save_repository_info` — upsert keyed on repo_name. -/
def save_repository_info (now : Int) (s : Store) (repo : String) (info : JValue) : Store :=
  { s with repository_data :=
      if s.repository_data.any (fun r => r.repo_name = repo) then
        s.repository_data.map (fun r =>
          if r.repo_name = repo then ⟨repo, info, now⟩ else r)
      else
        s.repository_data ++ [⟨repo, info, now⟩] }

/-- `database.py: save_repository_issues` — upsert keyed on repo_name. -/
def save_repository_issues (now : Int) (s : Store) (repo : String) (issues : JValue) : Store :=
  { s with repository_issues :=
      if s.repository_issues.any (fun r => r.repo_name = repo) then
        s.repository_issues.map (fun r =>
          if r.repo_name = repo then ⟨repo, issues, now⟩ else r)
      else
        s.repository_issues ++ [⟨repo, issues, now⟩] }

/-- `database.py: save_visualization_data` — upsert keyed on
(repo_name, visualization_type). -/
def save_visualization_data (now : Int) (s : Store) (repo vizType : String) (data : JValue) : Store :=
  let hit := s.visualization_cache.any
    (fun r => r.repo_name = repo ∧ r.visualization_type = vizType)
  { s with visualization_cache :=
      if hit then
        s.visualization_cache.map (fun r =>
          if r.repo_name = repo ∧ r.visualization_type = vizType then
            ⟨repo, vizType, data, now⟩ else r)
      else
        s.visualization_cache ++ [⟨repo, vizType, data, now⟩] }

/-- `database.py: get_repository_info` — return the cached payload unless the
row is absent or `datetime.now() - last_updated > timedelta(hours=max_age)`.
The stored text was produced by `json.dumps` on this write path, so the
final `json.loads` succeeds and is modelled by returning the stored value. -/
def get_repository_info (now : Int) (s : Store) (repo : String)
    (max_age_hours : Int := 24) : Option JValue :=
  match lookupRepoData s repo with
  | none => none
  | some row =>
    if now - row.last_updated > 3600 * max_age_hours then none
    else some row.repo_info

/-- `database.py: get_visualization_data` — same freshness shape as
`get_repository_info`, keyed on (repo, visualization_type). -/
def get_visualization_data (now : Int) (s : Store) (repo vizType : String)
    (max_age_hours : Int := 24) : Option JValue :=
  match lookupViz s repo vizType with
  | none => none
  | some row =>
    if now - row.last_updated > 3600 * max_age_hours then none
    else some row.data

/-- Element-wise repair loop of `database.py: get_repository_issues`:
string items are decoded with `json.loads` (skipped with a warning when the
decode raises), non-string items are appended unchanged. -/
def repairItems (loads : String → Option JValue) : List JValue → List JValue
  | [] => []
  | .str s :: rest =>
    match loads s with
    | some v => v :: repairItems loads rest
    | none => repairItems loads rest
  | item :: rest => item :: repairItems loads rest

/-- Defensive normalization inside `get_repository_issues`: the per-element
repair runs only when the payload is a non-empty list whose FIRST element is
a string whose stripped form starts with `{`; otherwise the payload is
returned exactly as stored. -/
def normalizeIssuesPayload (loads : String → Option JValue) : JValue → JValue
  | .arr (first :: rest) =>
    match first with
    | .str s =>
      if strStartsWith (pyStrip s) "\x7b" then .arr (repairItems loads (.str s :: rest))
      else .arr (first :: rest)
    | _ => .arr (first :: rest)
  | v => v

/-- `database.py: get_repository_issues` — freshness gate as above, then the
defensive double-encoding repair. -/
def get_repository_issues (loads : String → Option JValue) (now : Int)
    (s : Store) (repo : String) (max_age_hours : Int := 24) : Option JValue :=
  match lookupRepoIssues s repo with
  | none => none
  | some row =>
    if now - row.last_updated > 3600 * max_age_hours then none
    else some (normalizeIssuesPayload loads row.issues_data)

mutual

/-- Structural equality of JSON values, modelling the `=` comparisons SQLite
performs on stored issue-number parameters. -/
def jbeq : JValue → JValue → Bool
  | .null, .null => true
  | .bool a, .bool b => a = b
  | .num a, .num b => a = b
  | .str a, .str b => a = b
  | .arr a, .arr b => jbeqArr a b
  | .obj a, .obj b => jbeqObj a b
  | _, _ => false

def jbeqArr : List JValue → List JValue → Bool
  | [], [] => true
  | x :: xs, y :: ys => jbeq x y && jbeqArr xs ys
  | _, _ => false

def jbeqObj : List (String × JValue) → List (String × JValue) → Bool
  | [], [] => true
  | (k, v) :: xs, (k2, v2) :: ys => k = k2 && jbeq v v2 && jbeqObj xs ys
  | _, _ => false

end

/-- Per-item normalization at the top of
`database.py: save_issues_with_embeddings`: string items are decoded
(skipped when the decode raises), then anything that is not a dict is
skipped with a warning. -/
def normalizeElems (loads : String → Option JValue) : List JValue → List JValue
  | [] => []
  | .str t :: rest =>
    (match loads t with
     | some (.obj fs) => [JValue.obj fs]
     | some _ => []
     | none => []) ++ normalizeElems loads rest
  | .obj fs :: rest => .obj fs :: normalizeElems loads rest
  | _ :: rest => normalizeElems loads rest

/-- The field extraction performed at the head of the per-issue loop of
`save_issues_with_embeddings` (lines 350-369 of database.py), including the
truthiness-based `or` chains for the identity fields and the author. -/
structure ExtractedIssue where
  issue_id : Option JValue
  issue_number : Option JValue
  title : JValue
  body : JValue
  state : JValue
  author : JValue
  created_at : JValue
  updated_at : JValue
  labels : String

def extractIssue (fs : List (String × JValue)) : ExtractedIssue :=
  let raw_user := pyOr (pyGet fs "user") (pyGet fs "author")
  { issue_id := pyOr (pyGet fs "id") (pyGet fs "issue_id")
    issue_number := pyOr (pyGet fs "number") (pyGet fs "issue_number")
    title := pyGetD fs "title" (.str "")
    body := pyGetD fs "body" (.str "")
    state := pyGetD fs "state" (.str "open")
    author :=
      match raw_user with
      | some (.obj ufs) => pyGetD ufs "login" (.str "")
      | some v => if truthy v then v else .str ""
      | none => .str ""
    created_at := pyGetD fs "created_at" (.str "")
    updated_at := pyGetD fs "updated_at" (.str "")
    labels :=
      match pyGetD fs "labels" (.arr []) with
      | .str t => t
      | v => jsonDumps v }

/-- The `content = f"{title}\n\n{body}" if body else title` /
`if content and content.strip():` logic guarding the embedding call.
Result: `some (some text)` — derive an embedding from `text`;
`some none` — skip the embedding step; `none` — Python would raise
`AttributeError` (`content.strip()` on a truthy non-string title with a
falsy body), aborting the batch before its commit. -/
def embeddingContent (title body : JValue) : Option (Option String) :=
  if truthy body then
    let c := pyStr title ++ "\n\n" ++ pyStr body
    if pyStrip c ≠ "" then some (some c) else some none
  else
    match title with
    | .str t => if t ≠ "" ∧ pyStrip t ≠ "" then some (some t) else some none
    | v => if truthy v then none else some none

/-- Fields of a normalized element (always an object after
`normalizeElems`; the catch-all is unreachable). -/
def objFields : JValue → List (String × JValue)
  | .obj fs => fs
  | _ => []

/-- One iteration of the per-issue loop of `save_issues_with_embeddings`
(field extraction, skip on missing identity, duplicate check against the
accumulated table, the insert, and the guarded embedding attempt whose
failure is caught per issue). `none` models an uncaught exception. -/
def issueStep (ext : Externals) (repo : String) (issue : JValue)
    (accIss : List IssueRow) (accVec : List VecRow) :
    Option (List IssueRow × List VecRow) :=
  let e := extractIssue (objFields issue)
  match e.issue_id, e.issue_number with
  | some idVal, some numVal =>
    if accIss.any (fun r => r.repo_name = repo && jbeq r.issue_number numVal) then
      some (accIss, accVec)
    else
      let row : IssueRow :=
        ⟨idVal, repo, numVal, e.title, e.body, e.state, e.author,
          e.created_at, e.updated_at, e.labels⟩
      match embeddingContent e.title e.body with
      | none => none
      | some none => some (accIss ++ [row], accVec)
      | some (some text) =>
        match ext.embed text with
        | some emb => some (accIss ++ [row], accVec ++ [⟨idVal, emb⟩])
        | none => some (accIss ++ [row], accVec)
  | _, _ => some (accIss, accVec)

/-- The per-issue loop of `save_issues_with_embeddings`, accumulating the
`issues` and `vec_issues` tables of the shared cursor (an insert is visible
to the duplicate check for later elements of the same batch). `none` models
an uncaught exception: the connection closes without `commit` and every
statement of the batch is rolled back. -/
def saveIssuesLoop (ext : Externals) (repo : String) :
    List JValue → List IssueRow → List VecRow → Option (List IssueRow × List VecRow)
  | [], accIss, accVec => some (accIss, accVec)
  | issue :: rest, accIss, accVec =>
    match issueStep ext repo issue accIss accVec with
    | none => none
    | some (accIss2, accVec2) => saveIssuesLoop ext repo rest accIss2 accVec2

/-- Commit of the batch: a completed loop installs the accumulated tables,
an aborted one (uncaught exception, no `commit`) leaves the store as it
was. -/
def applyLoopResult (s : Store) : Option (List IssueRow × List VecRow) → Store
  | some (iss, vec) => { s with issues := iss, vec_issues := vec }
  | none => s

/-- `database.py: save_issues_with_embeddings`. A string payload is decoded
once more; a payload that is not a list is logged and nothing is written. -/
def save_issues_with_embeddings (ext : Externals) (s : Store) (repo : String)
    (issues_data : JValue) : Store :=
  let decoded : Option JValue :=
    match issues_data with
    | .str t => ext.loads t
    | v => some v
  match decoded with
  | none => s
  | some v =>
    match v with
    | .arr items =>
      applyLoopResult s
        (saveIssuesLoop ext repo (normalizeElems ext.loads items) s.issues s.vec_issues)
    | _ => s

/-! ## Scoped query executor (`database.py: execute_sql_query_on_issues`) -/

/-- ASCII approximation of the regex word class `\w` used by
`re.sub(r'\bissues\b', ..., flags=re.IGNORECASE)`; every query of interest
is ASCII. -/
def isWordChar (c : Char) : Bool :=
  c.isAlphanum || c = '_'

def substIssuesRun (run : List Char) : List Char :=
  if strLower (String.mk run) = "issues" then "issues_filtered".toList else run

/-- Whole-word, case-insensitive replacement of `issues` by
`issues_filtered`: maximal word-character runs equal (up to case) to
`issues` are substituted, every other character is kept. `cur` holds the
current run reversed. -/
def rewriteGo : List Char → List Char → List Char
  | cur, [] => substIssuesRun cur.reverse
  | cur, c :: rest =>
    if isWordChar c then rewriteGo (c :: cur) rest
    else substIssuesRun cur.reverse ++ c :: rewriteGo [] rest

def rewriteIssuesRefs (s : String) : String :=
  String.mk (rewriteGo [] s.toList)

inductive SqlOutcome where
  | ok (columns : List String) (rows : List (List Int)) (query : String)
  | err (msg : String) (query : String)
deriving Repr, DecidableEq

/-- Row count of the table named `tbl` as seen by the scoped session:
`issues_filtered` is the session-local temp table built by
`CREATE TEMP TABLE issues_filtered AS SELECT * FROM issues WHERE repo_name = ?`;
the four base tables remain reachable under their own names. `none` means
the name resolves to no table and SQLite raises. -/
def tableRowCount (s : Store) (repo : String) (tbl : String) : Option Int :=
  match strLower tbl with
  | "issues_filtered" => some ((s.issues.filter (fun r => r.repo_name = repo)).length : Int)
  | "issues" => some ((s.issues.length : Nat) : Int)
  | "repository_issues" => some ((s.repository_issues.length : Nat) : Int)
  | "repository_data" => some ((s.repository_data.length : Nat) : Int)
  | "visualization_cache" => some ((s.visualization_cache.length : Nat) : Int)
  | _ => none

def splitTokensGo (cur : List Char) : List Char → List String
  | [] => if cur = [] then [] else [String.mk cur.reverse]
  | c :: rest =>
    if isPySpace c then
      (if cur = [] then [] else [String.mk cur.reverse]) ++ splitTokensGo [] rest
    else splitTokensGo (c :: cur) rest

/-- Whitespace tokenization of the query text. -/
def splitTokens (s : String) : List String :=
  splitTokensGo [] s.toList

/-- Evaluation of the rewritten query text by SQLite, modelled for the
fragment the verified properties exercise: `SELECT COUNT(*) FROM <table>`
and `SELECT <integer literal>` (keywords case-insensitive). Any other
accepted text falls into the executor's exception branch, exactly as an
unsupported or ill-formed query raises inside `cursor.execute`. -/
def runScopedQuery (s : Store) (repo : String) (q : String) :
    Option (List String × List (List Int)) :=
  match splitTokens q with
  | [sel, cnt, frm, tbl] =>
    if strLower sel = "select" ∧ strLower cnt = "count(*)" ∧ strLower frm = "from" then
      match tableRowCount s repo tbl with
      | some n => some ([cnt], [[n]])
      | none => none
    else none
  | [sel, lit] =>
    if strLower sel = "select" then
      match intLit lit with
      | some n => some ([lit], [[n]])
      | none => none
    else none
  | _ => none

/-- `database.py: execute_sql_query_on_issues` — sanitize (`strip` then
`rstrip(';')`), the three rejection checks, the whole-word rewrite of
`issues` to the repo-scoped temp table, then execution. The exception
branch returns `str(e)` with the ORIGINAL query; the success branch returns
the rewritten query. The executor only ever reads the store (rejection
happens before any statement runs, and accepted statements are SELECTs). -/
def execute_sql_query_on_issues (s : Store) (repo : String) (sql_query : String) : SqlOutcome :=
  let sanitized := pyRstripSemi (pyStrip sql_query)
  if sanitized = "" then .err "Empty SQL query provided." sql_query
  else if ¬ strStartsWith (strLower sanitized) "select" then
    .err "Only SELECT statements are allowed." sanitized
  else if containsChar sanitized ';' then
    .err "Multiple SQL statements are not allowed." sanitized
  else
    let filtered := rewriteIssuesRefs sanitized
    match runScopedQuery s repo filtered with
    | some (cols, rows) => .ok cols rows filtered
    | none => .err "SQL query execution failed" sql_query

/-! ## main.py — cache orchestrator endpoints -/

/-- An HTTP-layer result: FastAPI envelope `{"status","data","source"}`,
a raw payload returned as-is (nomic endpoint), or an `HTTPException`. -/
inductive ApiResult where
  | success (data : JValue) (source : String)
  | raw (data : JValue)
  | httpError (status : Nat) (detail : String)
deriving Repr

structure FetchOutcome where
  response : ApiResult
  store : Store
  fetched : Bool
deriving Repr

/-- Completeness check inside `main.py: get_issues_data` for one cached
element: a dict whose `id` and `number` values are both non-`None`. -/
def isCompleteIssue : JValue → Bool
  | .obj fs => (pyGet fs "id").isSome && (pyGet fs "number").isSome
  | _ => false

/-- `for issue in cached_issues` over the truthy cached payload. Iterating a
non-empty string or dict yields characters / keys, which fail the dict
check; no write path of this code produces a truthy non-iterable here. -/
def cacheComplete : JValue → Bool
  | .arr xs => xs.all isCompleteIssue
  | _ => false

/-- `main.py: get_issues_data` — cache consultation guarded by
`force_refresh`, the batch-completeness validation on a cache hit, and the
GitHub fetch fallback (`fetchIssues` is the outcome of the external
`get_issues` call; `.error` models it raising). Note the fetch path saves
whatever list the producer returned — including the empty list — and
returns it as a success with source `api`. -/
def get_issues_data (loads : String → Option JValue) (now : Int) (s : Store)
    (repo : String) (force_refresh : Bool)
    (fetchIssues : Except String (List JValue)) : FetchOutcome :=
  let tryFetch : FetchOutcome :=
    match fetchIssues with
    | .ok issues =>
      { response := .success (.arr issues) "api"
        store := save_repository_issues now s repo (.arr issues)
        fetched := true }
    | .error e =>
      { response := .httpError 500 ("Error fetching repository issues: " ++ e)
        store := s
        fetched := true }
  if force_refresh then tryFetch
  else
    match get_repository_issues loads now s repo 24 with
    | some cached =>
      if truthy cached then
        if cacheComplete cached then
          { response := .success cached "cache", store := s, fetched := false }
        else tryFetch
      else tryFetch
    | none => tryFetch

/-- `main.py: get_repository_info_api`. The 404 raised for a falsy producer
result sits INSIDE the `try` block, so the surrounding
`except Exception` re-wraps it into a 500 whose detail embeds the
stringified 404; either way no cache write happens for a falsy result. -/
def get_repository_info_api (now : Int) (s : Store) (repo : String)
    (force_refresh : Bool) (fetchInfo : Except String JValue) : FetchOutcome :=
  let tryFetch : FetchOutcome :=
    match fetchInfo with
    | .ok info =>
      if truthy info then
        { response := .success info "api"
          store := save_repository_info now s repo info
          fetched := true }
      else
        { response := .httpError 500
            ("Error fetching repository info: 404: Repository " ++ repo ++
              " not found or API error")
          store := s
          fetched := true }
    | .error e =>
      { response := .httpError 500 ("Error fetching repository info: " ++ e)
        store := s
        fetched := true }
  if force_refresh then tryFetch
  else
    match get_repository_info now s repo 24 with
    | some info =>
      if truthy info then
        { response := .success info "cache", store := s, fetched := false }
      else tryFetch
    | none => tryFetch

structure VizOutcome where
  response : ApiResult
  store : Store
  producerInvoked : Bool
deriving Repr

/-- `main.py: get_wordcloud` (`POST /visualize/wordcloud`). The endpoint
receives `force_refresh` inside the request model but NEVER reads it: the
visualization cache is consulted and a truthy fresh artifact is returned
with source `cache` unconditionally. The fall-through path resolves issues
(cache, then GitHub), generates the word cloud, persists it and returns it
with source `generated`; HTTP 404s raised inside the `try` are re-wrapped
by `except Exception` into 500s. -/
def get_wordcloud (loads : String → Option JValue) (now : Int) (s : Store)
    (repo : String) (_force_refresh : Bool) (field : String)
    (fetchIssues : Except String (List JValue))
    (wordcloudProducer : Except String JValue) : VizOutcome :=
  let vt := "wordcloud_" ++ field
  let generate (_issues_df : JValue) (s1 : Store) : VizOutcome :=
    match wordcloudProducer with
    | .error e =>
      { response := .httpError 500 ("Error generating wordcloud: " ++ e)
        store := s1, producerInvoked := true }
    | .ok wc =>
      if truthy wc then
        { response := .success wc "generated"
          store := save_visualization_data now s1 repo vt wc
          producerInvoked := true }
      else
        { response := .httpError 500
            "Error generating wordcloud: 404: Not enough text data for wordcloud visualization"
          store := s1, producerInvoked := true }
  let resolveIssues : VizOutcome :=
    match get_repository_issues loads now s repo 24 with
    | some d =>
      if truthy d then generate d s
      else
        match fetchIssues with
        | .error e =>
          { response := .httpError 500 ("Error generating wordcloud: " ++ e)
            store := s, producerInvoked := false }
        | .ok issues =>
          if issues.isEmpty then
            { response := .httpError 500
                ("Error generating wordcloud: 404: No issues found for repository " ++ repo)
              store := s, producerInvoked := false }
          else generate (.arr issues) (save_repository_issues now s repo (.arr issues))
    | none =>
      match fetchIssues with
      | .error e =>
        { response := .httpError 500 ("Error generating wordcloud: " ++ e)
          store := s, producerInvoked := false }
      | .ok issues =>
        if issues.isEmpty then
          { response := .httpError 500
              ("Error generating wordcloud: 404: No issues found for repository " ++ repo)
            store := s, producerInvoked := false }
        else generate (.arr issues) (save_repository_issues now s repo (.arr issues))
  match get_visualization_data now s repo vt 24 with
  | some cached =>
    if truthy cached then
      { response := .success cached "cache", store := s, producerInvoked := false }
    else resolveIssues
  | none => resolveIssues

/-- `main.py: clear_cache` — issues exactly three DELETE statements, one per
`repository_data`, `repository_issues` and `visualization_cache`; the
`issues` and `vec_issues` tables are not touched. -/
def clear_cache (s : Store) (repo : String) : Store :=
  { s with
      repository_data := s.repository_data.filter (fun r => ¬ r.repo_name = repo)
      repository_issues := s.repository_issues.filter (fun r => ¬ r.repo_name = repo)
      visualization_cache := s.visualization_cache.filter (fun r => ¬ r.repo_name = repo) }

structure NomicOutcome where
  response : ApiResult
  store : Store
  producerInvoked : Bool
deriving Repr

/-- `cached_data.get("status") == "processing"` on the fields of a cached
dict artifact. -/
def statusIsProcessing (fs : List (String × JValue)) : Bool :=
  match findField fs "status" with
  | some (.str t) => t = "processing"
  | _ => false

/-- Python `"error" in topic_data` for a dict payload. -/
def hasErrorKey : JValue → Bool
  | .obj fs => (findField fs "error").isSome
  | _ => false

def errorDetail : JValue → String
  | .obj fs => pyStr (pyGetD fs "error" .null)
  | _ => ""

/-- `main.py: get_nomic_atlas_topics`. Cache window 168 h; a cached artifact
whose payload is a dict with sub-status `processing` triggers a second
lookup of the row's `last_updated`, and an age beyond 1 h flips
`force_refresh` before falling through to regeneration, while a younger
processing artifact is returned as-is. The fall-through resolves issues via
`get_issues_data` (exceptions propagate out of the endpoint), invokes the
external `prepare_nomic_atlas_topics` producer, rejects a payload carrying
an `error` key with a 500, and otherwise persists and returns the raw
payload. -/
def get_nomic_atlas_topics (loads : String → Option JValue) (now : Int)
    (s : Store) (repo field : String) (force_refresh : Bool)
    (fetchIssues : Except String (List JValue))
    (nomicProducer : Except String JValue) : NomicOutcome :=
  let vt := "nomic_atlas_topics_" ++ field
  let cache_expiration_hours : Int := 168
  let fallThrough (forceNow : Bool) : NomicOutcome :=
    match get_issues_data loads now s repo forceNow fetchIssues with
    | ⟨.httpError c m, s1, _⟩ => ⟨.httpError c m, s1, false⟩
    | ⟨.raw d, s1, _⟩ => ⟨.raw d, s1, false⟩
    | ⟨.success data _, s1, _⟩ =>
      if ¬ truthy data then
        ⟨.httpError 404 ("No issues data found for repository: " ++ repo), s1, false⟩
      else
        match nomicProducer with
        | .error e => ⟨.httpError 500 e, s1, true⟩
        | .ok topic_data =>
          if hasErrorKey topic_data then
            ⟨.httpError 500 (errorDetail topic_data), s1, true⟩
          else
            ⟨.raw topic_data, save_visualization_data now s1 repo vt topic_data, true⟩
  if force_refresh then fallThrough true
  else
    match get_visualization_data now s repo vt cache_expiration_hours with
    | none => fallThrough false
    | some cached =>
      match cached with
      | .obj fs =>
        if statusIsProcessing fs then
          match lookupViz s repo vt with
          | some row =>
            if now - row.last_updated > 3600 * 1 then fallThrough true
            else ⟨.raw cached, s, false⟩
          | none => ⟨.raw cached, s, false⟩
        else ⟨.raw cached, s, false⟩
      | _ => ⟨.raw cached, s, false⟩

/-! ## Helper lemmas -/

theorem find_filter_none {α : Type} (l : List α) (p q : α → Bool)
    (h : ∀ a, q a = true → p a = false) : (l.filter p).find? q = none := by
  induction l with
  | nil => rfl
  | cons a t ih =>
    cases hp : p a with
    | false => simpa [List.filter_cons, hp] using ih
    | true =>
      have hq : q a = false := by
        cases hqa : q a with
        | false => rfl
        | true => rw [h a hqa] at hp; cases hp
      simp [List.filter_cons, hp, List.find?_cons, hq, ih]

theorem find_map_upsert_ri (l : List RepoIssuesRow) (repo : String) (v : JValue) (now : Int)
    (h : l.any (fun r => r.repo_name = repo) = true) :
    (l.map (fun r => if r.repo_name = repo then (⟨repo, v, now⟩ : RepoIssuesRow) else r)).find?
      (fun r => r.repo_name = repo) = some ⟨repo, v, now⟩ := by
  induction l with
  | nil => cases h
  | cons a t ih =>
    by_cases ha : a.repo_name = repo
    · simp [ha]
    · have h' : t.any (fun r => r.repo_name = repo) = true := by
        simpa [List.any_cons, ha] using h
      simp [ha, ih h']

theorem find_append_single_ri (l : List RepoIssuesRow) (repo : String) (x : RepoIssuesRow)
    (h : l.any (fun r => r.repo_name = repo) = false) (hx : x.repo_name = repo) :
    (l ++ [x]).find? (fun r => r.repo_name = repo) = some x := by
  induction l with
  | nil => simp [List.find?, hx]
  | cons a t ih =>
    simp only [List.any_cons, Bool.or_eq_false_iff] at h
    have ha : (a.repo_name = repo) = False := by
      simpa using h.1
    simp [List.find?_cons, ha, ih h.2]

/-- The upsert of `save_repository_issues` is visible to the keyed lookup. -/
theorem lookup_save_repository_issues (now : Int) (s : Store) (repo : String) (v : JValue) :
    lookupRepoIssues (save_repository_issues now s repo v) repo = some ⟨repo, v, now⟩ := by
  unfold lookupRepoIssues save_repository_issues
  by_cases h : s.repository_issues.any (fun r => r.repo_name = repo) = true
  · simpa [h] using find_map_upsert_ri s.repository_issues repo v now h
  · have h' : s.repository_issues.any (fun r => r.repo_name = repo) = false := by
      simpa using h
    simpa [h'] using find_append_single_ri s.repository_issues repo ⟨repo, v, now⟩ h' rfl

/-! ## Claim theorems -/

/-- **C3** — For every cache read with timestamp `T` and maximum-age window
`W` (hours), the cached value is served exactly when `now - T ≤ W`
(equality at the boundary counts as fresh), and an absent row is a cache
miss (`none`), not an error; shown for both `get_visualization_data` and
`get_repository_info`. -/
theorem freshness_policy (now : Int) (s : Store) (repo vt : String) (w : Int) :
    (∀ d, get_visualization_data now s repo vt w = some d ↔
        ∃ row, lookupViz s repo vt = some row ∧ row.data = d ∧
          now - row.last_updated ≤ 3600 * w) ∧
    (lookupViz s repo vt = none → get_visualization_data now s repo vt w = none) ∧
    (∀ d, get_repository_info now s repo w = some d ↔
        ∃ row, lookupRepoData s repo = some row ∧ row.repo_info = d ∧
          now - row.last_updated ≤ 3600 * w) ∧
    (lookupRepoData s repo = none → get_repository_info now s repo w = none) := by
  refine ⟨?_, ?_, ?_, ?_⟩
  · intro d
    cases hrow : lookupViz s repo vt with
    | none => simp [get_visualization_data, hrow]
    | some row =>
      by_cases hage : now - row.last_updated > 3600 * w
      · simp only [get_visualization_data, hrow, if_pos hage]
        constructor
        · intro h; cases h
        · rintro ⟨row2, hrow2, _, hle⟩
          cases hrow2
          omega
      · simp only [get_visualization_data, hrow, if_neg hage]
        constructor
        · intro h
          cases h
          exact ⟨row, rfl, rfl, by omega⟩
        · rintro ⟨row2, hrow2, hd, _⟩
          cases hrow2
          rw [hd]
  · intro h
    simp [get_visualization_data, h]
  · intro d
    cases hrow : lookupRepoData s repo with
    | none => simp [get_repository_info, hrow]
    | some row =>
      by_cases hage : now - row.last_updated > 3600 * w
      · simp only [get_repository_info, hrow, if_pos hage]
        constructor
        · intro h; cases h
        · rintro ⟨row2, hrow2, _, hle⟩
          cases hrow2
          omega
      · simp only [get_repository_info, hrow, if_neg hage]
        constructor
        · intro h
          cases h
          exact ⟨row, rfl, rfl, by omega⟩
        · rintro ⟨row2, hrow2, hd, _⟩
          cases hrow2
          rw [hd]
  · intro h
    simp [get_repository_info, h]

/-- Witness for C3, at the exact freshness boundary: a visualization row
written at time 0 and read at `now = 86400` under a 24-hour window
(`now - T = 3600 * 24` exactly) is served. -/
theorem freshness_policy_witness :
    get_visualization_data 86400 ⟨[], [], [⟨"A", "insights", .num 1, 0⟩], [], []⟩
      "A" "insights" 24 = some (.num 1) :=
  ((freshness_policy 86400 ⟨[], [], [⟨"A", "insights", .num 1, 0⟩], [], []⟩
      "A" "insights" 24).1 (.num 1)).mpr
    ⟨⟨"A", "insights", .num 1, 0⟩, rfl, rfl, by norm_num⟩

/-- **C10** — On a fresh cached issue batch, the per-element double-encoding
repair of `get_repository_issues` is attempted exactly when the FIRST
element is a string whose stripped form starts with `{`; when the first
element is anything else (in particular an object), the batch is returned
verbatim, so later JSON-encoded string elements reach the caller
un-decoded. -/
theorem cached_batch_repair_gate (loads : String → Option JValue) (now : Int)
    (s : Store) (repo : String) (row : RepoIssuesRow) (first : JValue)
    (rest : List JValue)
    (hrow : lookupRepoIssues s repo = some row)
    (hfresh : now - row.last_updated ≤ 3600 * 24)
    (hdata : row.issues_data = .arr (first :: rest)) :
    ((∀ t, first = .str t → strStartsWith (pyStrip t) "\x7b" = false) →
        get_repository_issues loads now s repo 24 = some (.arr (first :: rest))) ∧
    (∀ t, first = .str t → strStartsWith (pyStrip t) "\x7b" = true →
        get_repository_issues loads now s repo 24 =
          some (.arr (repairItems loads (first :: rest)))) := by
  have hbase : get_repository_issues loads now s repo 24 =
      some (normalizeIssuesPayload loads (.arr (first :: rest))) := by
    unfold get_repository_issues
    rw [hrow]
    show (if now - row.last_updated > 3600 * 24 then none
      else some (normalizeIssuesPayload loads row.issues_data)) = _
    rw [if_neg (by omega), hdata]
  constructor
  · intro hns
    rw [hbase]
    cases first with
    | str t =>
      have := hns t rfl
      simp [normalizeIssuesPayload, this]
    | null => rfl
    | bool b => rfl
    | num n => rfl
    | arr xs => rfl
    | obj fs => rfl
  · intro t ht hstarts
    subst ht
    rw [hbase]
    simp [normalizeIssuesPayload, hstarts]

/-- Witness for C10: a fresh batch whose first element is an object and
whose second element is a JSON-encoded string is returned exactly as
stored, string and all (decoder irrelevant: it maps everything to `none`). -/
theorem cached_batch_repair_gate_witness :
    get_repository_issues (fun _ => none) 0
      ⟨[], [⟨"A", .arr [.obj [("id", .num 1)], .str "[2]"], 0⟩], [], [], []⟩
      "A" 24 =
      some (.arr [.obj [("id", .num 1)], .str "[2]"]) :=
  (cached_batch_repair_gate (fun _ => none) 0
      ⟨[], [⟨"A", .arr [.obj [("id", .num 1)], .str "[2]"], 0⟩], [], [], []⟩
      "A" ⟨"A", .arr [.obj [("id", .num 1)], .str "[2]"], 0⟩
      (.obj [("id", .num 1)]) [.str "[2]"]
      rfl (by norm_num) rfl).1
    (fun t ht => JValue.noConfusion ht)

/-- A sample individual issue row (used by concrete stores below). -/
def exIssueRow (n : Int) (repo : String) : IssueRow :=
  ⟨.num n, repo, .num n, .str "t", .null, .str "open", .str "u", .str "", .str "", "[]"⟩

/-- Concrete store populated in all five tables for repository "A". -/
def sC5 : Store :=
  ⟨[⟨"A", .num 1, 0⟩], [⟨"A", .arr [], 0⟩], [⟨"A", "insights", .num 2, 0⟩],
    [exIssueRow 7 "A"], [⟨.num 7, "e"⟩]⟩

/-- **C5 counterexample** — `clear_cache` does NOT delete across all four
table families: with every table populated for repository "A",
`clear_cache sC5 "A"` leaves the individual issue row (and its embedding
vector) belonging to "A" in place. -/
theorem clear_cache_counterexample :
    (clear_cache sC5 "A").issues = [exIssueRow 7 "A"] ∧
    (clear_cache sC5 "A").vec_issues = [⟨.num 7, "e"⟩] ∧
    (exIssueRow 7 "A").repo_name = "A" :=
  ⟨rfl, rfl, rfl⟩

/-- **C5 (amended)** — `clear_cache repo` deletes exactly the rows whose
`repo_name` equals the given repository from the THREE families
`repository_data`, `repository_issues` and `visualization_cache` (rows of
every other repository are untouched, as the filter equations show), and
leaves the individual `issues` rows and the `vec_issues` embeddings
entirely unchanged; afterwards the snapshot, issue-batch and visualization
reads for that repository all miss. -/
theorem clear_cache_amended (s : Store) (repo : String)
    (loads : String → Option JValue) (now w : Int) (vt : String) :
    (clear_cache s repo).repository_data =
        s.repository_data.filter (fun r => ¬ r.repo_name = repo) ∧
    (clear_cache s repo).repository_issues =
        s.repository_issues.filter (fun r => ¬ r.repo_name = repo) ∧
    (clear_cache s repo).visualization_cache =
        s.visualization_cache.filter (fun r => ¬ r.repo_name = repo) ∧
    (clear_cache s repo).issues = s.issues ∧
    (clear_cache s repo).vec_issues = s.vec_issues ∧
    get_repository_info now (clear_cache s repo) repo w = none ∧
    get_repository_issues loads now (clear_cache s repo) repo w = none ∧
    get_visualization_data now (clear_cache s repo) repo vt w = none := by
  have h1 : lookupRepoData (clear_cache s repo) repo = none := by
    unfold lookupRepoData clear_cache
    exact find_filter_none _ _ _ (by intro a ha; simp at ha ⊢; exact ha)
  have h2 : lookupRepoIssues (clear_cache s repo) repo = none := by
    unfold lookupRepoIssues clear_cache
    exact find_filter_none _ _ _ (by intro a ha; simp at ha ⊢; exact ha)
  have h3 : lookupViz (clear_cache s repo) repo vt = none := by
    unfold lookupViz clear_cache
    exact find_filter_none _ _ _ (by intro a ha; simp at ha ⊢; exact ha.1)
  refine ⟨rfl, rfl, rfl, rfl, rfl, ?_, ?_, ?_⟩
  · simp [get_repository_info, h1]
  · simp [get_repository_issues, h2]
  · simp [get_visualization_data, h3]

/-- A concrete stand-in for the external JSON decoder. -/
def loads0 : String → Option JValue := fun _ => none

/-- **C7 counterexample** — when the GitHub producer returns the empty issue
list, `get_issues_data` does NOT signal a not-found condition and DOES
write to the cache: it upserts the empty batch into `repository_issues`
and returns it as a success with source `api`. -/
theorem empty_producer_cached_counterexample :
    get_issues_data loads0 0 Store.empty "A" false (.ok []) =
      ⟨.success (.arr []) "api", ⟨[], [⟨"A", .arr [], 0⟩], [], [], []⟩, true⟩ :=
  rfl

/-- **C7 (amended)** — only the repository-info operation treats a falsy
producer result as not-found: it answers with an error response (the 404
detail re-wrapped into a 500 by its own `except` clause) and performs no
cache write, while `get_issues_data` persists an empty producer result and
returns it as a success with source `api` (the write being visible to the
next keyed lookup). -/
theorem not_found_handling_amended (now : Int) (s : Store) (repo : String)
    (loads : String → Option JValue) (info : JValue)
    (hinfo : truthy info = false) :
    (get_repository_info_api now s repo true (.ok info)).store = s ∧
    (get_repository_info_api now s repo true (.ok info)).response =
      .httpError 500 ("Error fetching repository info: 404: Repository " ++
        repo ++ " not found or API error") ∧
    (get_issues_data loads now s repo true (.ok [])).response =
      .success (.arr []) "api" ∧
    lookupRepoIssues ((get_issues_data loads now s repo true (.ok [])).store) repo =
      some ⟨repo, .arr [], now⟩ := by
  refine ⟨?_, ?_, ?_, ?_⟩
  · simp [get_repository_info_api, hinfo]
  · simp [get_repository_info_api, hinfo]
  · simp [get_issues_data]
  · have : (get_issues_data loads now s repo true (.ok [])).store =
        save_repository_issues now s repo (.arr []) := by
      simp [get_issues_data]
    rw [this]
    exact lookup_save_repository_issues now s repo (.arr [])

/-- Witness for the amended C7 at a concrete falsy producer payload. -/
theorem not_found_handling_amended_witness :
    (get_repository_info_api 0 Store.empty "A" true (.ok (.num 0))).store = Store.empty :=
  (not_found_handling_amended 0 Store.empty "A" loads0 (.num 0) (by decide)).1

/-- **C2** — With `force_refresh = false` and a truthy fresh cached batch,
`get_issues_data` returns it with provenance `cache` exactly when every
element is a dict carrying a non-`None` `id` and a non-`None` `number`;
an incomplete batch makes the call behave exactly as if `force_refresh`
had been requested (cache bypassed, remote fetch performed). -/
theorem issue_batch_validation (loads : String → Option JValue) (now : Int)
    (s : Store) (repo : String) (xs : List JValue)
    (fetch : Except String (List JValue))
    (hcache : get_repository_issues loads now s repo 24 = some (.arr xs))
    (hne : xs ≠ []) :
    (cacheComplete (.arr xs) = true ↔ ∀ j ∈ xs, isCompleteIssue j = true) ∧
    (cacheComplete (.arr xs) = true →
        get_issues_data loads now s repo false fetch =
          ⟨.success (.arr xs) "cache", s, false⟩) ∧
    (cacheComplete (.arr xs) = false →
        get_issues_data loads now s repo false fetch =
          get_issues_data loads now s repo true fetch) := by
  have htr : truthy (.arr xs) = true := by
    cases xs with
    | nil => exact absurd rfl hne
    | cons a t => rfl
  refine ⟨by simp [cacheComplete, List.all_eq_true], ?_, ?_⟩
  · intro hc
    simp [get_issues_data, hcache, htr, hc]
  · intro hc
    simp [get_issues_data, hcache, htr, hc]

/-- Concrete store with a complete fresh cached issue batch for "A". -/
def sC2 : Store :=
  ⟨[], [⟨"A", .arr [.obj [("id", .num 1), ("number", .num 5)]], 0⟩], [], [], []⟩

/-- Witness for C2: the complete cached batch is served with source
`cache` and no fetch. -/
theorem issue_batch_validation_witness :
    get_issues_data loads0 0 sC2 "A" false (.ok []) =
      ⟨.success (.arr [.obj [("id", .num 1), ("number", .num 5)]]) "cache", sC2, false⟩ :=
  (issue_batch_validation loads0 0 sC2 "A"
      [.obj [("id", .num 1), ("number", .num 5)]] (.ok []) rfl
      (List.cons_ne_nil _ _)).2.1 rfl

/-- A truthy word-cloud artifact payload. -/
def wcData : JValue := .obj [("words", .arr [.str "w"])]

/-- Store with a fresh word-cloud artifact for "A". -/
def sWC : Store := ⟨[], [], [⟨"A", "wordcloud_body", wcData, 0⟩], [], []⟩

/-- **C9 counterexample** — the word-cloud operation does NOT bypass the
cache when `force_refresh` is true: with a fresh cached artifact it
returns provenance `cache` and never invokes the producer, despite
`force_refresh = true`. -/
theorem force_refresh_ignored_counterexample :
    get_wordcloud loads0 0 sWC "A" true "body" (.ok []) (.ok .null) =
      ⟨.success wcData "cache", sWC, false⟩ :=
  rfl

/-- **C9 (amended)** — `get_repository_info_api` follows the
`get_or_produce` template (`force_refresh = false` serves a truthy fresh
row with provenance `cache`; `force_refresh = true` makes the response
independent of the cached rows), but the word-cloud operation is entirely
independent of the `force_refresh` flag and serves a truthy fresh cached
artifact with provenance `cache` unconditionally. -/
theorem cache_template_amended (loads : String → Option JValue) (now : Int) :
    (∀ (s : Store) (repo field : String) (b b2 : Bool)
        (fetch : Except String (List JValue)) (wc : Except String JValue),
        get_wordcloud loads now s repo b field fetch wc =
          get_wordcloud loads now s repo b2 field fetch wc) ∧
    (∀ (s : Store) (repo field : String) (b : Bool)
        (fetch : Except String (List JValue)) (wc : Except String JValue) (c : JValue),
        get_visualization_data now s repo ("wordcloud_" ++ field) 24 = some c →
        truthy c = true →
        get_wordcloud loads now s repo b field fetch wc =
          ⟨.success c "cache", s, false⟩) ∧
    (∀ (s : Store) (repo : String) (fetch : Except String JValue)
        (rows rows2 : List RepoDataRow),
        (get_repository_info_api now { s with repository_data := rows }
            repo true fetch).response =
          (get_repository_info_api now { s with repository_data := rows2 }
            repo true fetch).response) ∧
    (∀ (s : Store) (repo : String) (fetch : Except String JValue) (c : JValue),
        get_repository_info now s repo 24 = some c →
        truthy c = true →
        get_repository_info_api now s repo false fetch =
          ⟨.success c "cache", s, false⟩) := by
  refine ⟨fun _ _ _ _ _ _ _ => rfl, ?_, ?_, ?_⟩
  · intro s repo field b fetch wc c hc htr
    simp [get_wordcloud, hc, htr]
  · intro s repo fetch rows rows2
    cases fetch with
    | error e => rfl
    | ok info =>
      by_cases htr : truthy info = true
      · simp [get_repository_info_api, htr]
      · have htr' : truthy info = false := by simpa using htr
        simp [get_repository_info_api, htr']
  · intro s repo fetch c hc htr
    simp [get_repository_info_api, hc, htr]

/-- Store with a fresh word-cloud artifact for "B" under field `title`. -/
def sWC2 : Store := ⟨[], [], [⟨"B", "wordcloud_title", wcData, 0⟩], [], []⟩

/-- Witness for the amended C9. -/
theorem cache_template_amended_witness :
    get_wordcloud loads0 0 sWC2 "B" true "title" (.ok []) (.ok .null) =
      ⟨.success wcData "cache", sWC2, false⟩ :=
  (cache_template_amended loads0 0).2.1 sWC2 "B" "title" true (.ok []) (.ok .null)
    wcData rfl rfl

/-- Fresh-lookup helper: a present row within its window is returned. -/
theorem get_viz_of_lookup (now : Int) (s : Store) (repo vt : String) (w : Int)
    (row : VizRow) (hrow : lookupViz s repo vt = some row)
    (hfresh : now - row.last_updated ≤ 3600 * w) :
    get_visualization_data now s repo vt w = some row.data := by
  unfold get_visualization_data
  rw [hrow]
  show (if now - row.last_updated > 3600 * w then none else some row.data) = _
  rw [if_neg (by omega)]

/-- **C4** — a cached nomic-atlas artifact that is a dict with sub-status
`processing` and sits inside the 168-hour primary window: when its age is
at most 1 hour it is returned as-is with no producer invocation; when its
age exceeds 1 hour the regeneration pass runs and (whenever the issue
resolution yields a non-empty list) the topic producer is invoked again. -/
theorem processing_grace_period (loads : String → Option JValue) (now : Int)
    (s : Store) (repo field : String) (fetch : Except String (List JValue))
    (nomic : Except String JValue) (row : VizRow) (fs : List (String × JValue))
    (hrow : lookupViz s repo ("nomic_atlas_topics_" ++ field) = some row)
    (hdata : row.data = .obj fs)
    (hstatus : statusIsProcessing fs = true)
    (hfresh : now - row.last_updated ≤ 3600 * 168) :
    (now - row.last_updated ≤ 3600 →
        get_nomic_atlas_topics loads now s repo field false fetch nomic =
          ⟨.raw (.obj fs), s, false⟩) ∧
    (now - row.last_updated > 3600 →
        ∀ issues, fetch = .ok issues → issues ≠ [] →
          (get_nomic_atlas_topics loads now s repo field false fetch nomic).producerInvoked =
            true) := by
  have hviz := get_viz_of_lookup now s repo ("nomic_atlas_topics_" ++ field) 168 row hrow hfresh
  rw [hdata] at hviz
  constructor
  · intro h1
    have hage : ¬ (3600 < now - row.last_updated) := by omega
    simp [get_nomic_atlas_topics, hviz, hstatus, hrow, hage, hdata]
  · intro h1 issues hfe hne
    subst hfe
    have hage : now - row.last_updated > 3600 * 1 := by omega
    have htr : truthy (.arr issues) = true := by
      cases issues with
      | nil => exact absurd rfl hne
      | cons a t => rfl
    simp only [get_nomic_atlas_topics, hviz, hstatus, hrow, hage, if_true,
      Bool.false_eq_true, if_false, get_issues_data, htr]
    cases nomic with
    | error e => simp [get_issues_data, htr]
    | ok topic_data =>
      by_cases he : hasErrorKey topic_data = true
      · simp [get_issues_data, htr, he]
      · simp [get_issues_data, htr, he]

/-- Store holding a `processing` nomic artifact for "A" written at time 0. -/
def sNomic : Store :=
  ⟨[], [], [⟨"A", "nomic_atlas_topics_body", .obj [("status", .str "processing")], 0⟩], [], []⟩

/-- Witness for C4: at `now = 7200` (age 2 h, inside the 168 h window) the
producer is re-invoked. -/
theorem processing_grace_period_witness :
    (get_nomic_atlas_topics loads0 7200 sNomic "A" "body" false
        (.ok [.obj [("id", .num 1)]]) (.ok (.obj [("topics", .arr [])]))).producerInvoked =
      true :=
  (processing_grace_period loads0 7200 sNomic "A" "body"
      (.ok [.obj [("id", .num 1)]]) (.ok (.obj [("topics", .arr [])]))
      ⟨"A", "nomic_atlas_topics_body", .obj [("status", .str "processing")], 0⟩
      [("status", .str "processing")] rfl rfl rfl (by norm_num)).2
    (by norm_num) [.obj [("id", .num 1)]] rfl (List.cons_ne_nil _ _)

/-- Stores for the scoped-query escape: identical on every row belonging to
repository "A" (and on the whole issues table), differing only in a
`repository_issues` row belonging to "B". -/
def sqlS1 : Store := ⟨[], [⟨"A", .arr [], 0⟩], [], [exIssueRow 1 "A"], []⟩

def sqlS2 : Store := ⟨[], [⟨"A", .arr [], 0⟩, ⟨"B", .arr [], 0⟩], [], [exIssueRow 1 "A"], []⟩

/-- **C1 counterexample** — the result of an accepted scoped query CAN
depend on rows of another repository: the whole-word rewrite only
redirects the table name `issues`, so the accepted query
`SELECT COUNT(*) FROM repository_issues` reads the unscoped batch-cache
table. `sqlS1` and `sqlS2` agree on every row belonging to repository "A"
(and on the entire issues table) yet the executor returns 1 on one store
and 2 on the other. -/
theorem scoped_query_escape_counterexample :
    sqlS1.issues = sqlS2.issues ∧
    sqlS1.repository_data = sqlS2.repository_data ∧
    sqlS1.visualization_cache = sqlS2.visualization_cache ∧
    sqlS1.vec_issues = sqlS2.vec_issues ∧
    sqlS1.repository_issues.filter (fun r => r.repo_name = "A") =
      sqlS2.repository_issues.filter (fun r => r.repo_name = "A") ∧
    execute_sql_query_on_issues sqlS1 "A" "SELECT COUNT(*) FROM repository_issues" =
      .ok ["COUNT(*)"] [[1]] "SELECT COUNT(*) FROM repository_issues" ∧
    execute_sql_query_on_issues sqlS2 "A" "SELECT COUNT(*) FROM repository_issues" =
      .ok ["COUNT(*)"] [[2]] "SELECT COUNT(*) FROM repository_issues" :=
  ⟨rfl, rfl, rfl, rfl, rfl, rfl, rfl⟩

def sqlIssueRows (repo : String) (base : Int) (k : Nat) : List IssueRow :=
  (List.range k).map (fun i => exIssueRow (base + i) repo)

/-- Ten issues for "A" and five for "B". -/
def sqlS10 : Store := ⟨[], [], [], sqlIssueRows "A" 0 10 ++ sqlIssueRows "B" 100 5, []⟩

/-- **C1 (amended)** — queries whose only table reference is the whole word
`issues` are rewritten against the repository-scoped temp table, so for
EVERY store `SELECT COUNT(*) FROM issues` counts exactly the issue rows of
the requested repository (with 10 "A"-issues and 5 "B"-issues the count is
10, never 15); isolation fails only for queries naming other tables, as
the counterexample shows. -/
theorem scoped_query_amended :
    (∀ (s : Store) (repo : String),
        execute_sql_query_on_issues s repo "SELECT COUNT(*) FROM issues" =
          .ok ["COUNT(*)"]
            [[((s.issues.filter (fun r => r.repo_name = repo)).length : Int)]]
            "SELECT COUNT(*) FROM issues_filtered") ∧
    execute_sql_query_on_issues sqlS10 "A" "SELECT COUNT(*) FROM issues" =
      .ok ["COUNT(*)"] [[10]] "SELECT COUNT(*) FROM issues_filtered" :=
  ⟨fun _ _ => rfl, by decide⟩

/-- The CLAIM's reading of the sanitization step — trimming a SINGLE
trailing statement separator (spec wording); compare `pyRstripSemi`, the
source's `rstrip(';')`, which trims them all. -/
def specTrimOneSemi (s : String) : String :=
  match s.toList.reverse with
  | ';' :: rest => String.mk rest.reverse
  | _ => s

/-- **C6 counterexample** — `"SELECT 1;;"` still contains a statement
separator after trimming a single trailing one, yet the executor does not
reject it: `rstrip(';')` removes BOTH trailing semicolons and the query
executes. -/
theorem multi_semicolon_counterexample :
    containsChar (specTrimOneSemi (pyStrip "SELECT 1;;")) ';' = true ∧
    execute_sql_query_on_issues Store.empty "A" "SELECT 1;;" =
      .ok ["1"] [[1]] "SELECT 1" :=
  ⟨by decide, by decide⟩

/-- The rejection predicate of the executor (observer of its checks). -/
def queryRejected (q : String) : Bool :=
  let sanitized := pyRstripSemi (pyStrip q)
  sanitized = "" || !(strStartsWith (strLower sanitized) "select") || containsChar sanitized ';'

/-- **C6 (amended)** — the executor rejects, with a structured error object
and without reading any store state (the outcome of a rejected query is
identical across stores and repositories, rejection happening before any
statement runs): empty input, input not starting with `SELECT`
(case-insensitive), and input still containing `';'` after trimming ALL
trailing semicolons; in particular `"SELECT 1; DROP TABLE issues"` is
rejected. -/
theorem query_rejection_amended (q : String) (s s2 : Store) (repo repo2 : String) :
    (pyRstripSemi (pyStrip q) = "" →
        execute_sql_query_on_issues s repo q = .err "Empty SQL query provided." q) ∧
    (pyRstripSemi (pyStrip q) ≠ "" →
        strStartsWith (strLower (pyRstripSemi (pyStrip q))) "select" = false →
        execute_sql_query_on_issues s repo q =
          .err "Only SELECT statements are allowed." (pyRstripSemi (pyStrip q))) ∧
    (strStartsWith (strLower (pyRstripSemi (pyStrip q))) "select" = true →
        containsChar (pyRstripSemi (pyStrip q)) ';' = true →
        execute_sql_query_on_issues s repo q =
          .err "Multiple SQL statements are not allowed." (pyRstripSemi (pyStrip q))) ∧
    (queryRejected q = true →
        execute_sql_query_on_issues s repo q = execute_sql_query_on_issues s2 repo2 q) ∧
    execute_sql_query_on_issues s repo "SELECT 1; DROP TABLE issues" =
      .err "Multiple SQL statements are not allowed." "SELECT 1; DROP TABLE issues" := by
  have hE : ∀ (st : Store) (rp : String), pyRstripSemi (pyStrip q) = "" →
      execute_sql_query_on_issues st rp q = .err "Empty SQL query provided." q := by
    intro st rp h
    simp [execute_sql_query_on_issues, h]
  have hO : ∀ (st : Store) (rp : String), pyRstripSemi (pyStrip q) ≠ "" →
      strStartsWith (strLower (pyRstripSemi (pyStrip q))) "select" = false →
      execute_sql_query_on_issues st rp q =
        .err "Only SELECT statements are allowed." (pyRstripSemi (pyStrip q)) := by
    intro st rp h1 h2
    simp [execute_sql_query_on_issues, h1, h2]
  have hM : ∀ (st : Store) (rp : String),
      strStartsWith (strLower (pyRstripSemi (pyStrip q))) "select" = true →
      containsChar (pyRstripSemi (pyStrip q)) ';' = true →
      execute_sql_query_on_issues st rp q =
        .err "Multiple SQL statements are not allowed." (pyRstripSemi (pyStrip q)) := by
    intro st rp h1 h2
    have hne : pyRstripSemi (pyStrip q) ≠ "" := by
      intro h0
      rw [h0] at h1
      exact absurd h1 (by decide)
    simp [execute_sql_query_on_issues, hne, h1, h2]
  refine ⟨hE s repo, hO s repo, hM s repo, ?_, rfl⟩
  intro hr
  unfold queryRejected at hr
  simp only [Bool.or_eq_true, Bool.not_eq_true'] at hr
  rcases hr with (h | h) | h
  · have h' : pyRstripSemi (pyStrip q) = "" := by simpa using h
    rw [hE s repo h', hE s2 repo2 h']
  · by_cases h0 : pyRstripSemi (pyStrip q) = ""
    · rw [hE s repo h0, hE s2 repo2 h0]
    · rw [hO s repo h0 h, hO s2 repo2 h0 h]
  · by_cases h1 : strStartsWith (strLower (pyRstripSemi (pyStrip q))) "select" = true
    · rw [hM s repo h1 h, hM s2 repo2 h1 h]
    · by_cases h0 : pyRstripSemi (pyStrip q) = ""
      · rw [hE s repo h0, hE s2 repo2 h0]
      · have h1' : strStartsWith (strLower (pyRstripSemi (pyStrip q))) "select" = false := by
          simpa using h1
        rw [hO s repo h0 h1', hO s2 repo2 h0 h1']

/-- Witness for the amended C6: a whitespace-and-semicolons input is
rejected as empty. -/
theorem query_rejection_amended_witness :
    execute_sql_query_on_issues Store.empty "A" "  ;; " =
      .err "Empty SQL query provided." "  ;; " :=
  (query_rejection_amended "  ;; " Store.empty sC5 "A" "B").1 (by decide)

/-- An element with no extractable identity is skipped without touching
either accumulated table. -/
theorem issueStep_skip (ext : Externals) (repo : String) (bad : JValue)
    (accI : List IssueRow) (accV : List VecRow)
    (hbad : (extractIssue (objFields bad)).issue_id = none ∨
      (extractIssue (objFields bad)).issue_number = none) :
    issueStep ext repo bad accI accV = some (accI, accV) := by
  unfold issueStep
  dsimp only
  rcases hbad with h | h
  · rw [h]
  · rw [h]
    cases (extractIssue (objFields bad)).issue_id <;> rfl

/-- The `issues`-table component of one step never depends on the embedding
client or on the accumulated vector table. -/
theorem issueStep_fst_indep (e1 e2 : Externals) (repo : String) (x : JValue)
    (accI : List IssueRow) (v1 v2 : List VecRow) :
    (issueStep e1 repo x accI v1).map Prod.fst =
      (issueStep e2 repo x accI v2).map Prod.fst := by
  unfold issueStep
  dsimp only
  cases (extractIssue (objFields x)).issue_id with
  | none => rfl
  | some idVal =>
    cases (extractIssue (objFields x)).issue_number with
    | none => rfl
    | some numVal =>
      by_cases hdup :
          accI.any (fun r => r.repo_name = repo && jbeq r.issue_number numVal) = true
      · simp [hdup]
      · have hdup' :
            accI.any (fun r => r.repo_name = repo && jbeq r.issue_number numVal) = false := by
          simpa using hdup
        simp only [hdup', Bool.false_eq_true, if_false]
        cases embeddingContent (extractIssue (objFields x)).title
            (extractIssue (objFields x)).body with
        | none => rfl
        | some c =>
          cases c with
          | none => rfl
          | some text =>
            cases he1 : e1.embed text <;> cases he2 : e2.embed text <;>
              simp [he1, he2]

theorem saveIssuesLoop_fst_indep (e1 e2 : Externals) (repo : String)
    (items : List JValue) : ∀ (accI : List IssueRow) (v1 v2 : List VecRow),
    (saveIssuesLoop e1 repo items accI v1).map Prod.fst =
      (saveIssuesLoop e2 repo items accI v2).map Prod.fst := by
  induction items with
  | nil => intro accI v1 v2; rfl
  | cons x rest ih =>
    intro accI v1 v2
    have hstep := issueStep_fst_indep e1 e2 repo x accI v1 v2
    simp only [saveIssuesLoop]
    cases h1 : issueStep e1 repo x accI v1 with
    | none =>
      rw [h1] at hstep
      cases h2 : issueStep e2 repo x accI v2 with
      | none => rfl
      | some p2 => rw [h2] at hstep; cases hstep
    | some p1 =>
      rw [h1] at hstep
      cases h2 : issueStep e2 repo x accI v2 with
      | none => rw [h2] at hstep; cases hstep
      | some p2 =>
        rw [h2] at hstep
        have hfst : p1.1 = p2.1 := by
          simpa using hstep
        obtain ⟨a1, b1⟩ := p1
        obtain ⟨a2, b2⟩ := p2
        dsimp at hfst
        subst hfst
        exact ih a1 b1 b2

theorem applyLoopResult_issues (s : Store) (o : Option (List IssueRow × List VecRow)) :
    (applyLoopResult s o).issues = (o.map Prod.fst).getD s.issues := by
  cases o with
  | none => rfl
  | some p => obtain ⟨a, b⟩ := p; rfl

theorem saveIssuesLoop_skip (ext : Externals) (repo : String) (bad : JValue)
    (hbad : (extractIssue (objFields bad)).issue_id = none ∨
      (extractIssue (objFields bad)).issue_number = none) :
    ∀ (pre post : List JValue) (accI : List IssueRow) (accV : List VecRow),
    saveIssuesLoop ext repo (pre ++ bad :: post) accI accV =
      saveIssuesLoop ext repo (pre ++ post) accI accV := by
  intro pre
  induction pre with
  | nil =>
    intro post accI accV
    simp [saveIssuesLoop, issueStep_skip ext repo bad accI accV hbad]
  | cons a pre ih =>
    intro post accI accV
    simp only [List.cons_append, saveIssuesLoop]
    cases issueStep ext repo a accI accV with
    | none => rfl
    | some p =>
      obtain ⟨a2, v2⟩ := p
      exact ih post a2 v2

theorem save_issues_indep (e1 e2 : Externals) (s : Store) (repo : String)
    (v : JValue) (h : e1.loads = e2.loads) :
    (save_issues_with_embeddings e1 s repo v).issues =
      (save_issues_with_embeddings e2 s repo v).issues := by
  have key : ∀ (items : List JValue),
      (applyLoopResult s
          (saveIssuesLoop e1 repo (normalizeElems e2.loads items) s.issues s.vec_issues)).issues =
      (applyLoopResult s
          (saveIssuesLoop e2 repo (normalizeElems e2.loads items) s.issues s.vec_issues)).issues := by
    intro items
    rw [applyLoopResult_issues, applyLoopResult_issues,
      saveIssuesLoop_fst_indep e1 e2 repo (normalizeElems e2.loads items)
        s.issues s.vec_issues s.vec_issues]
  unfold save_issues_with_embeddings
  rw [h]
  cases v with
  | str t =>
    dsimp only
    cases e2.loads t with
    | none => rfl
    | some w =>
      cases w with
      | arr items => exact key items
      | null => rfl
      | bool b => rfl
      | num n => rfl
      | str u => rfl
      | obj fs => rfl
  | arr items => exact key items
  | null => rfl
  | bool b => rfl
  | num n => rfl
  | obj fs => rfl

/-- Embedding client that always succeeds (the produced vector is identified
by its input text). -/
def extOK : Externals := ⟨fun _ => none, fun t => some t⟩

/-- Embedding client that raises exactly on the first example issue's text. -/
def extFail : Externals :=
  ⟨fun _ => none, fun t => if t = "Bug A\n\ncrashes" then none else some t⟩

/-- Three normalized issues, the middle one with empty title and body. -/
def exBatch : List JValue :=
  [.obj [("id", .num 1), ("number", .num 101), ("title", .str "Bug A"),
      ("body", .str "crashes")],
   .obj [("id", .num 2), ("number", .num 102), ("title", .str ""), ("body", .str "")],
   .obj [("id", .num 3), ("number", .num 103), ("title", .str "Feature C"),
      ("body", .null)]]

def sEmb : Store := save_issues_with_embeddings extOK Store.empty "A" (.arr exBatch)

/-- **C8** — behaviour of `save_issues_with_embeddings`:
(1) on three issues of which one has empty title and body, exactly 3 issue
rows and exactly 2 embedding vectors are created (for the two issues with
non-empty trimmed text, keyed by their ids);
(2) an embedding-derivation failure on one issue is caught: the same 3 rows
are inserted and the remaining embedding is still created;
(3) in general the inserted `issues` rows NEVER depend on the embedding
client, so no embedding failure can abort or alter the insertion of any
issue of the batch;
(4) an element whose identity fields cannot be extracted is skipped with no
effect whatsoever on the processing of the elements around it;
(5) re-running the batch inserts nothing (insert-if-absent on the
(repository, issue-number) key). -/
theorem embedding_index_properties :
    (sEmb.issues.map (fun r => r.issue_number) = [.num 101, .num 102, .num 103] ∧
      sEmb.vec_issues = [⟨.num 1, "Bug A\n\ncrashes"⟩, ⟨.num 3, "Feature C"⟩]) ∧
    ((save_issues_with_embeddings extFail Store.empty "A" (.arr exBatch)).issues.map
        (fun r => r.issue_number) = [.num 101, .num 102, .num 103] ∧
      (save_issues_with_embeddings extFail Store.empty "A" (.arr exBatch)).vec_issues =
        [⟨.num 3, "Feature C"⟩]) ∧
    (save_issues_with_embeddings extOK sEmb "A" (.arr exBatch) = sEmb) ∧
    (∀ (e1 e2 : Externals) (s : Store) (repo : String) (v : JValue),
        e1.loads = e2.loads →
        (save_issues_with_embeddings e1 s repo v).issues =
          (save_issues_with_embeddings e2 s repo v).issues) ∧
    (∀ (ext : Externals) (repo : String) (bad : JValue),
        ((extractIssue (objFields bad)).issue_id = none ∨
          (extractIssue (objFields bad)).issue_number = none) →
        ∀ (pre post : List JValue) (accI : List IssueRow) (accV : List VecRow),
          saveIssuesLoop ext repo (pre ++ bad :: post) accI accV =
            saveIssuesLoop ext repo (pre ++ post) accI accV) :=
  ⟨⟨rfl, rfl⟩, ⟨rfl, rfl⟩, rfl,
    fun e1 e2 s repo v h => save_issues_indep e1 e2 s repo v h,
    fun ext repo bad hbad pre post accI accV =>
      saveIssuesLoop_skip ext repo bad hbad pre post accI accV⟩

/-- Witness for C8, instantiating the skip property at an element without
identity fields. -/
theorem embedding_index_properties_witness :
    saveIssuesLoop extOK "A" ([] ++ JValue.obj [] :: []) [] [] =
      saveIssuesLoop extOK "A" ([] ++ []) [] [] :=
  embedding_index_properties.2.2.2.2 extOK "A" (.obj []) (Or.inl rfl) [] [] [] []
